import Mathlib

/-!
# ThinkCode-AI, online-compiler/go/SemanticAnalyzer.go

A shallow embedding of the program's only function, `main`, as a function on
an explicit process state.  The operating system (the file system, the table
of open descriptors, standard output) is threaded through every call that
`main` makes; the JSON decoder of the Go standard library is a parameter.
-/

namespace SemanticAnalyzer

/-! ## Data model -/

/-- The values encoding/json stores in an `interface{}`; a number keeps the
text of its literal. -/
inductive Json where
  | null
  | bool (b : Bool)
  | num (literal : String)
  | str (s : String)
  | arr (items : List Json)
  | obj (members : List (String × Json))

/-- The Go type `map[string]interface{}` of the variable `ast`. -/
abbrev AstMap := List (String × Json)

/-- What `Decode(&ast)` does with the bytes it is given: the value it leaves in
`ast` (`none` is the nil map) and the error it returns (`none` is nil). -/
structure DecodeResult where
  value : Option AstMap
  err : Option String

/-- The file system as `os.Open` sees it: for each path either the text of the
error that opening it for reading gives, or the bytes of the file. -/
structure FileSys where
  openRead : String → Except String String

/-- The Go type `*os.PathError`, the only error `os.Open` returns. -/
structure PathError where
  Op : String
  Path : String
  Err : String

/-- The method `Error` of `*os.PathError`, which `%v` prints. -/
def PathError.Error (e : PathError) : String :=
  e.Op ++ " " ++ e.Path ++ ": " ++ e.Err

/-- The Go type `*os.File`: an open descriptor and the name it was opened by. -/
structure File where
  fd : Nat
  name : String

/-- The system calls of a run that concern files and termination. -/
inductive Event where
  | open (name : String) (fd : Option Nat)
  | close (fd : Nat)
  | exit (code : Nat)
  deriving DecidableEq

/-- The state of the running process and of the system around it. -/
structure Proc where
  args : List String
  fs : FileSys
  fds : List Nat
  stdout : List String
  trace : List Event

/-- How a run of `main` ends.  `source`, `ast` and `decodeErr` record what the
decoder was given, the final value of the local variable `ast`, and the error
`Decode` returned; `source` is `none` when `Decode` was never called. -/
structure Outcome where
  proc : Proc
  exitCode : Nat
  source : Option String
  ast : Option AstMap
  decodeErr : Option String

/-- A process as the system starts it: the three standard descriptors are
open, nothing has been written and no call has been made. -/
def start (fs : FileSys) (args : List String) : Proc :=
  { args := args, fs := fs, fds := [0, 1, 2], stdout := [], trace := [] }

/-! ## The library calls `main` makes -/

/-- The call `fmt.Println(s)`: one write of `s` and a newline. -/
def fmtPrintln (p : Proc) (s : String) : Proc :=
  { p with stdout := p.stdout ++ [s ++ "\n"] }

/-- Replaces the first `%v` of a format by the text of its operand. -/
def substVerb : List Char → String → List Char
  | [], _ => []
  | '%' :: 'v' :: rest, arg => arg.data ++ rest
  | c :: rest, arg => c :: substVerb rest arg

/-- The call `fmt.Printf(format, arg)` for a format with one `%v`. -/
def fmtPrintf (p : Proc) (format : String) (arg : String) : Proc :=
  { p with stdout := p.stdout ++ [String.mk (substVerb format.data arg)] }

/-- A descriptor number that is not in use. -/
def freshFd (fds : List Nat) : Nat :=
  fds.foldl max 2 + 1

/-- The call `os.Open(name)`: opens for reading only, so the file system is
left as it was. -/
def osOpen (p : Proc) (name : String) : Proc × Except PathError File :=
  match p.fs.openRead name with
  | .error errno =>
    ({ p with trace := p.trace ++ [Event.open name none] },
      .error { Op := "open", Path := name, Err := errno })
  | .ok _ =>
    ({ p with fds := freshFd p.fds :: p.fds,
              trace := p.trace ++ [Event.open name (some (freshFd p.fds))] },
      .ok { fd := freshFd p.fds, name := name })

/-- The bytes a reader of the open file obtains. -/
def File.readAll (f : File) (p : Proc) : String :=
  match p.fs.openRead f.name with
  | .ok bytes => bytes
  | .error _ => ""

/-- The method `Close` of `*os.File`. -/
def File.Close (f : File) (p : Proc) : Proc :=
  { p with fds := p.fds.erase f.fd, trace := p.trace ++ [Event.close f.fd] }

/-- The call `os.Exit(code)`: the process ends at once, deferred calls do not
run. -/
def osExit (p : Proc) (code : Nat) : Outcome :=
  { proc := { p with trace := p.trace ++ [Event.exit code] }, exitCode := code,
    source := none, ast := none, decodeErr := none }

/-! ## The program -/

/-- The function `main` of SemanticAnalyzer.go.  `decode` is
`json.NewDecoder(r).Decode(&ast)` as a function of the bytes of `r`. -/
def main (decode : String → DecodeResult) (p : Proc) : Outcome :=
  let p := fmtPrintln p "Running Go Semantic Analyzer..."
  match osOpen p "ast.json" with
  | (p, .error err) =>
    let p := fmtPrintf p "ERROR: could not open ast.json: %v\n" err.Error
    osExit p 1
  | (p, .ok astFile) =>
    -- defer astFile.Close()
    let input := astFile.readAll p
    let r := decode input
    -- the error `r.err` is not looked at
    let p := fmtPrintln p "Semantic analysis completed successfully."
    -- main returns: the deferred Close runs, the process exits with 0
    let p := astFile.Close p
    { proc := p, exitCode := 0, source := some input,
      ast := r.value, decodeErr := r.err }

/-- The paths a run passed to `os.Open`, in order. -/
def openedPaths : List Event → List String
  | [] => []
  | Event.open name _ :: rest => name :: openedPaths rest
  | _ :: rest => openedPaths rest

/-- The descriptors a run obtained from a successful `os.Open`, in order. -/
def openedFds : List Event → List Nat
  | [] => []
  | Event.open _ (some fd) :: rest => fd :: openedFds rest
  | _ :: rest => openedFds rest

/-- The descriptors a run closed, in order. -/
def closedFds : List Event → List Nat
  | [] => []
  | Event.close fd :: rest => fd :: closedFds rest
  | _ :: rest => closedFds rest

/-- The codes a run passed to `os.Exit`. -/
def exitCalls : List Event → List Nat
  | [] => []
  | Event.exit code :: rest => code :: exitCalls rest
  | _ :: rest => exitCalls rest

/-- The line of the first `fmt.Println`. -/
def bannerLine : String := "Running Go Semantic Analyzer...\n"

/-- The line of the last `fmt.Println`. -/
def successLine : String := "Semantic analysis completed successfully.\n"

/-- The line of the `fmt.Printf` for the text of an error. -/
def errorLine (err : String) : String :=
  "ERROR: could not open ast.json: " ++ err ++ "\n"

/-! ## The AST schema of the specification and the documents of the examples -/

/-- Modelled from the spec: the node kinds the data model lists.  The program
has no table of kinds. -/
def knownKinds : List String :=
  ["Literal", "Identifier", "BinaryOp", "Assignment", "Declaration", "FunctionDef",
   "Call", "Block", "If", "While", "Return"]

/-- Modelled from the spec: the check of the interchange format on the root of
a document, which has a `kind` that is a recognised tag and a `position`.  The
program has no such check. -/
def schemaOk (kinds : List String) (m : AstMap) : Bool :=
  match m.lookup "kind", m.lookup "position" with
  | some (Json.str k), some _ => kinds.contains k
  | _, _ => false

mutual
/-- The `kind` tags that occur in a document, at every depth. -/
def kindsIn : Json → List String
  | .obj members => kindsInMembers members
  | .arr items => kindsInItems items
  | _ => []
/-- The `kind` tags that occur in the members of an object. -/
def kindsInMembers : List (String × Json) → List String
  | [] => []
  | (key, .str s) :: rest =>
    if key = "kind" then s :: kindsInMembers rest else kindsInMembers rest
  | (_, v) :: rest => kindsIn v ++ kindsInMembers rest
/-- The `kind` tags that occur in the items of an array. -/
def kindsInItems : List Json → List String
  | [] => []
  | v :: rest => kindsIn v ++ kindsInItems rest
end

/-- A file system that holds the listed files and nothing else. -/
def fsOf (files : List (String × String)) : FileSys :=
  { openRead := fun name =>
      match files.lookup name with
      | some bytes => .ok bytes
      | none => .error "no such file or directory" }

/-- The text of a JSON object with neither `kind` nor `position`. -/
def nameOnlyText : String := "\x7b\"name\":\"x\"\x7d"

/-- The map that `nameOnlyText` decodes to. -/
def nameOnlyDoc : AstMap := [("name", .str "x")]

/-- The text of a well-formed AST whose only node is a reference to the
identifier `x`; nothing in it declares `x`. -/
def loneIdentifierText : String :=
  "\x7b\"kind\":\"Identifier\",\"name\":\"x\",\"position\":\x7b\"line\":1,\"column\":1\x7d\x7d"

/-- The map that `loneIdentifierText` decodes to. -/
def loneIdentifierDoc : AstMap :=
  [("kind", .str "Identifier"), ("name", .str "x"),
   ("position", .obj [("line", .num "1"), ("column", .num "1")])]

/-- A decoder for the examples.  On the three texts used there it answers as
encoding/json does: the empty stream gives the error `EOF` and leaves the map
nil, and each of the two objects gives its map and no error.  Any other text
is outside the examples and is answered with an error. -/
def sampleDecode (bytes : String) : DecodeResult :=
  if bytes = "" then { value := none, err := some "EOF" }
  else if bytes = nameOnlyText then { value := some nameOnlyDoc, err := none }
  else if bytes = loneIdentifierText then { value := some loneIdentifierDoc, err := none }
  else { value := none, err := some "not a text of the examples" }

/-! ## What a run of `main` is, by the outcome of `os.Open` -/

theorem main_open_error (decode : String → DecodeResult) (fs : FileSys) (args : List String)
    (e : String) (h : fs.openRead "ast.json" = .error e) :
    main decode (start fs args) =
      { proc := { args := args, fs := fs, fds := [0, 1, 2],
                  stdout := [bannerLine, errorLine ("open ast.json: " ++ e)],
                  trace := [Event.open "ast.json" none, Event.exit 1] },
        exitCode := 1, source := none, ast := none, decodeErr := none } := by
  simp only [main, start, fmtPrintln, osOpen, h]
  rfl

theorem main_open_ok (decode : String → DecodeResult) (fs : FileSys) (args : List String)
    (c : String) (h : fs.openRead "ast.json" = .ok c) :
    main decode (start fs args) =
      { proc := { args := args, fs := fs, fds := [0, 1, 2],
                  stdout := [bannerLine, successLine],
                  trace := [Event.open "ast.json" (some 3), Event.close 3] },
        exitCode := 0, source := some c, ast := (decode c).value,
        decodeErr := (decode c).err } := by
  simp only [main, start, fmtPrintln, osOpen, h, File.readAll, File.Close]
  rfl

theorem errorLine_ne_successLine (e : String) : errorLine e ≠ successLine := by
  intro h
  have hd := congrArg String.data h
  simp [errorLine, successLine, String.data_append] at hd

theorem main_fs (decode : String → DecodeResult) (p : Proc) :
    (main decode p).proc.fs = p.fs := by
  cases h : p.fs.openRead "ast.json" with
  | error e => simp [main, fmtPrintln, osOpen, h, fmtPrintf, osExit]
  | ok c => simp [main, fmtPrintln, osOpen, h, File.Close]

theorem decode_error_ignored (decode : String → DecodeResult) (fs : FileSys)
    (args : List String) (c e : String) (h : fs.openRead "ast.json" = .ok c)
    (he : (decode c).err = some e) :
    (main decode (start fs args)).decodeErr = some e ∧
      (main decode (start fs args)).exitCode = 0 ∧
      (main decode (start fs args)).proc.stdout = [bannerLine, successLine] := by
  rw [main_open_ok decode fs args c h]
  exact ⟨he, rfl, rfl⟩

theorem successLine_not_printed (decode : String → DecodeResult) (fs : FileSys)
    (args : List String) (e : String) (h : fs.openRead "ast.json" = .error e) :
    successLine ∉ (main decode (start fs args)).proc.stdout := by
  rw [main_open_error decode fs args e h]
  intro hmem
  simp only [List.mem_cons, List.mem_singleton, List.not_mem_nil, or_false] at hmem
  rcases hmem with hb | he
  · exact absurd hb (by decide)
  · exact errorLine_ne_successLine _ he.symm

/-! ## The claims -/

/-- C1: when opening the AST file fails, the run prints the banner and one
error line, calls `os.Exit(1)` and ends with exit code 1; the decoder is never
called and the success line is not printed. -/
theorem open_failure_exits_one (decode : String → DecodeResult) (fs : FileSys)
    (args : List String) (e : String) (h : fs.openRead "ast.json" = .error e) :
    (main decode (start fs args)).exitCode = 1 ∧
      (main decode (start fs args)).proc.stdout
        = [bannerLine, errorLine ("open ast.json: " ++ e)] ∧
      successLine ∉ (main decode (start fs args)).proc.stdout ∧
      (main decode (start fs args)).source = none ∧
      exitCalls (main decode (start fs args)).proc.trace = [1] := by
  refine ⟨?_, ?_, successLine_not_printed decode fs args e h, ?_, ?_⟩ <;>
    rw [main_open_error decode fs args e h]
  · rfl

/-- Witness of C1: a file system without `ast.json`. -/
theorem open_failure_exits_one_witness :
    (fsOf []).openRead "ast.json" = .error "no such file or directory" ∧
      (main sampleDecode (start (fsOf []) ["SemanticAnalyzer"])).exitCode = 1 ∧
      (main sampleDecode (start (fsOf []) ["SemanticAnalyzer"])).proc.stdout
        = [bannerLine,
            errorLine ("open ast.json: " ++ "no such file or directory")] ∧
      successLine ∉ (main sampleDecode (start (fsOf []) ["SemanticAnalyzer"])).proc.stdout ∧
      (main sampleDecode (start (fsOf []) ["SemanticAnalyzer"])).source = none ∧
      exitCalls (main sampleDecode (start (fsOf []) ["SemanticAnalyzer"])).proc.trace = [1] :=
  ⟨rfl, open_failure_exits_one sampleDecode (fsOf []) ["SemanticAnalyzer"]
    "no such file or directory" rfl⟩

/-- C2: on an `ast.json` that is empty the decoder returns the error `EOF`, and
the run nevertheless prints the success line and ends with exit code 0, without
an error line. -/
theorem empty_ast_file_reports_success :
    (fsOf [("ast.json", "")]).openRead "ast.json" = .ok "" ∧
      (main sampleDecode (start (fsOf [("ast.json", "")]) ["SemanticAnalyzer"])).decodeErr
        = some "EOF" ∧
      (main sampleDecode (start (fsOf [("ast.json", "")]) ["SemanticAnalyzer"])).exitCode = 0 ∧
      (main sampleDecode (start (fsOf [("ast.json", "")]) ["SemanticAnalyzer"])).proc.stdout
        = [bannerLine, successLine] :=
  ⟨rfl, decode_error_ignored sampleDecode (fsOf [("ast.json", "")]) ["SemanticAnalyzer"]
    "" "EOF" rfl rfl⟩

/-- C3: when `ast.json` opens, standard output is the banner line followed by
the success line, `os.Exit` is not called and the exit code is 0, whatever the
file holds and whatever the decoder makes of it: two such runs agree in both. -/
theorem opened_file_fixed_output (decode decode' : String → DecodeResult)
    (fs fs' : FileSys) (args args' : List String) (c c' : String)
    (h : fs.openRead "ast.json" = .ok c) (h' : fs'.openRead "ast.json" = .ok c') :
    (main decode (start fs args)).proc.stdout = [bannerLine, successLine] ∧
      (main decode (start fs args)).exitCode = 0 ∧
      exitCalls (main decode (start fs args)).proc.trace = [] ∧
      (main decode' (start fs' args')).proc.stdout
        = (main decode (start fs args)).proc.stdout ∧
      (main decode' (start fs' args')).exitCode = (main decode (start fs args)).exitCode := by
  rw [main_open_ok decode fs args c h, main_open_ok decode' fs' args' c' h']
  exact ⟨rfl, rfl, rfl, rfl, rfl⟩

/-- Witness of C3: an empty `ast.json` and one that holds an AST. -/
theorem opened_file_fixed_output_witness :
    (main sampleDecode (start (fsOf [("ast.json", "")]) [])).proc.stdout
        = [bannerLine, successLine] ∧
      (main sampleDecode (start (fsOf [("ast.json", "")]) [])).exitCode = 0 ∧
      exitCalls (main sampleDecode (start (fsOf [("ast.json", "")]) [])).proc.trace = [] ∧
      (main sampleDecode (start (fsOf [("ast.json", loneIdentifierText)]) [])).proc.stdout
        = (main sampleDecode (start (fsOf [("ast.json", "")]) [])).proc.stdout ∧
      (main sampleDecode (start (fsOf [("ast.json", loneIdentifierText)]) [])).exitCode
        = (main sampleDecode (start (fsOf [("ast.json", "")]) [])).exitCode :=
  opened_file_fixed_output sampleDecode sampleDecode (fsOf [("ast.json", "")])
    (fsOf [("ast.json", loneIdentifierText)]) [] [] "" loneIdentifierText rfl rfl

/-- C4, as stated, fails: with `tree.json` given on the command line the run
opens `ast.json` only, and what it decodes is the content of `ast.json`, not
that of `tree.json`. -/
theorem command_line_path_not_opened :
    "tree.json" ∈ ["SemanticAnalyzer", "tree.json"].tail ∧
      (fsOf [("ast.json", ""), ("tree.json", nameOnlyText)]).openRead "tree.json"
        = .ok nameOnlyText ∧
      "tree.json" ∉ openedPaths
        (main sampleDecode (start (fsOf [("ast.json", ""), ("tree.json", nameOnlyText)])
          ["SemanticAnalyzer", "tree.json"])).proc.trace ∧
      (main sampleDecode (start (fsOf [("ast.json", ""), ("tree.json", nameOnlyText)])
          ["SemanticAnalyzer", "tree.json"])).source = some "" ∧
      (main sampleDecode (start (fsOf [("ast.json", ""), ("tree.json", nameOnlyText)])
          ["SemanticAnalyzer", "tree.json"])).ast = none := by
  refine ⟨by decide, rfl, by decide, rfl, rfl⟩

/-- C4, amended: whatever the command line holds, the one path a run opens is
the fixed name `ast.json`, what it decodes is the content of that file, and
two runs that differ in their command line only make the same calls, write the
same output and end with the same exit code. -/
theorem opens_fixed_path (decode : String → DecodeResult) (fs : FileSys)
    (args args' : List String) :
    openedPaths (main decode (start fs args)).proc.trace = ["ast.json"] ∧
      (main decode (start fs args)).source = (fs.openRead "ast.json").toOption ∧
      (main decode (start fs args')).proc.trace = (main decode (start fs args)).proc.trace ∧
      (main decode (start fs args')).proc.stdout = (main decode (start fs args)).proc.stdout ∧
      (main decode (start fs args')).exitCode = (main decode (start fs args)).exitCode := by
  cases h : fs.openRead "ast.json" with
  | error e =>
    rw [main_open_error decode fs args e h, main_open_error decode fs args' e h]
    exact ⟨rfl, rfl, rfl, rfl, rfl⟩
  | ok c =>
    rw [main_open_ok decode fs args c h, main_open_ok decode fs args' c h]
    exact ⟨rfl, rfl, rfl, rfl, rfl⟩

/-- C5, as stated, fails: the object of `nameOnlyText` is valid JSON with
neither `kind` nor `position`; it decodes without an error, and the run prints
the success line and ends with exit code 0. -/
theorem schema_violation_reported_complete :
    schemaOk knownKinds nameOnlyDoc = false ∧
      (main sampleDecode (start (fsOf [("ast.json", nameOnlyText)]) [])).ast
        = some nameOnlyDoc ∧
      (main sampleDecode (start (fsOf [("ast.json", nameOnlyText)]) [])).decodeErr = none ∧
      (main sampleDecode (start (fsOf [("ast.json", nameOnlyText)]) [])).exitCode = 0 ∧
      (main sampleDecode (start (fsOf [("ast.json", nameOnlyText)]) [])).proc.stdout
        = [bannerLine, successLine] := by
  refine ⟨by decide, rfl, rfl, rfl, rfl⟩

/-- C5, amended: a document that is valid JSON and violates the AST schema is
not checked against the schema: the run keeps the decoded map, prints the
banner and the success line only, and ends with exit code 0. -/
theorem schema_never_checked (decode : String → DecodeResult) (fs : FileSys)
    (args : List String) (kinds : List String) (c : String) (m : AstMap)
    (h : fs.openRead "ast.json" = .ok c)
    (hd : decode c = { value := some m, err := none })
    (_hs : schemaOk kinds m = false) :
    (main decode (start fs args)).ast = some m ∧
      (main decode (start fs args)).exitCode = 0 ∧
      (main decode (start fs args)).proc.stdout = [bannerLine, successLine] ∧
      exitCalls (main decode (start fs args)).proc.trace = [] := by
  rw [main_open_ok decode fs args c h, hd]
  exact ⟨rfl, rfl, rfl, rfl⟩

/-- Witness of C5: the object without `kind` and `position`. -/
theorem schema_never_checked_witness :
    schemaOk knownKinds nameOnlyDoc = false ∧
      (main sampleDecode (start (fsOf [("ast.json", nameOnlyText)]) [])).ast
        = some nameOnlyDoc ∧
      (main sampleDecode (start (fsOf [("ast.json", nameOnlyText)]) [])).exitCode = 0 ∧
      (main sampleDecode (start (fsOf [("ast.json", nameOnlyText)]) [])).proc.stdout
        = [bannerLine, successLine] ∧
      exitCalls (main sampleDecode (start (fsOf [("ast.json", nameOnlyText)]) [])).proc.trace
        = [] :=
  ⟨by decide, schema_never_checked sampleDecode (fsOf [("ast.json", nameOnlyText)]) []
    knownKinds nameOnlyText nameOnlyDoc rfl rfl (by decide)⟩

/-- C6, as stated, fails: the AST of `loneIdentifierText` satisfies the schema,
its only node is a reference to `x` and no node declares anything, so `x` is
undeclared; the run ends with exit code 0 and prints the success line. -/
theorem undeclared_identifier_exits_zero :
    schemaOk knownKinds loneIdentifierDoc = true ∧
      kindsIn (.obj loneIdentifierDoc) = ["Identifier"] ∧
      (main sampleDecode (start (fsOf [("ast.json", loneIdentifierText)]) [])).ast
        = some loneIdentifierDoc ∧
      (main sampleDecode (start (fsOf [("ast.json", loneIdentifierText)]) [])).exitCode = 0 ∧
      successLine ∈
        (main sampleDecode (start (fsOf [("ast.json", loneIdentifierText)]) [])).proc.stdout := by
  refine ⟨by decide, by decide, rfl, rfl, by decide⟩

/-- C6, amended: an AST that opens and decodes without an error ends the run
with exit code 0 and the success line whatever it holds, so an AST with a
semantic error ends as one without: two such runs agree in exit code and
output.  A run whose open fails ends with exit code 1 and no success line. -/
theorem exit_code_ignores_decoded_ast (decode decode' : String → DecodeResult)
    (fs fs' fs0 : FileSys) (args : List String) (c c' e : String) (m m' : AstMap)
    (h : fs.openRead "ast.json" = .ok c)
    (hd : decode c = { value := some m, err := none })
    (h' : fs'.openRead "ast.json" = .ok c')
    (hd' : decode' c' = { value := some m', err := none })
    (h0 : fs0.openRead "ast.json" = .error e) :
    (main decode (start fs args)).ast = some m ∧
      (main decode (start fs args)).exitCode = 0 ∧
      successLine ∈ (main decode (start fs args)).proc.stdout ∧
      (main decode' (start fs' args)).ast = some m' ∧
      (main decode' (start fs' args)).exitCode = (main decode (start fs args)).exitCode ∧
      (main decode' (start fs' args)).proc.stdout
        = (main decode (start fs args)).proc.stdout ∧
      (main decode (start fs0 args)).exitCode = 1 ∧
      successLine ∉ (main decode (start fs0 args)).proc.stdout := by
  refine ⟨?_, ?_, ?_, ?_, ?_, ?_, ?_, successLine_not_printed decode fs0 args e h0⟩
  · rw [main_open_ok decode fs args c h, hd]
  · rw [main_open_ok decode fs args c h]
  · rw [main_open_ok decode fs args c h]
    exact List.mem_cons_of_mem _ (List.mem_singleton.mpr rfl)
  · rw [main_open_ok decode' fs' args c' h', hd']
  · rw [main_open_ok decode' fs' args c' h', main_open_ok decode fs args c h]
  · rw [main_open_ok decode' fs' args c' h', main_open_ok decode fs args c h]
  · rw [main_open_error decode fs0 args e h0]

/-- Witness of C6: the AST with the undeclared identifier, an object that
declares nothing and refers to nothing, and a file system without `ast.json`. -/
theorem exit_code_ignores_decoded_ast_witness :
    kindsIn (.obj loneIdentifierDoc) = ["Identifier"] ∧
      kindsIn (.obj nameOnlyDoc) = [] ∧
      (main sampleDecode (start (fsOf [("ast.json", loneIdentifierText)]) [])).ast
        = some loneIdentifierDoc ∧
      (main sampleDecode (start (fsOf [("ast.json", loneIdentifierText)]) [])).exitCode = 0 ∧
      successLine ∈
        (main sampleDecode (start (fsOf [("ast.json", loneIdentifierText)]) [])).proc.stdout ∧
      (main sampleDecode (start (fsOf [("ast.json", nameOnlyText)]) [])).ast
        = some nameOnlyDoc ∧
      (main sampleDecode (start (fsOf [("ast.json", nameOnlyText)]) [])).exitCode
        = (main sampleDecode (start (fsOf [("ast.json", loneIdentifierText)]) [])).exitCode ∧
      (main sampleDecode (start (fsOf [("ast.json", nameOnlyText)]) [])).proc.stdout
        = (main sampleDecode (start (fsOf [("ast.json", loneIdentifierText)]) [])).proc.stdout ∧
      (main sampleDecode (start (fsOf []) [])).exitCode = 1 ∧
      successLine ∉ (main sampleDecode (start (fsOf []) [])).proc.stdout :=
  ⟨by decide, by decide,
    exit_code_ignores_decoded_ast sampleDecode sampleDecode
      (fsOf [("ast.json", loneIdentifierText)]) (fsOf [("ast.json", nameOnlyText)]) (fsOf [])
      [] loneIdentifierText nameOnlyText "no such file or directory"
      loneIdentifierDoc nameOnlyDoc rfl rfl rfl rfl rfl⟩

/-- C7: a second run, started on the file system the first run left, with the
same command line and the same decoder, writes the same output, makes the same
calls and ends with the same exit code as the first. -/
theorem rerun_same_outcome (decode : String → DecodeResult) (fs : FileSys)
    (args : List String) :
    (main decode (start (main decode (start fs args)).proc.fs args)).proc.stdout
        = (main decode (start fs args)).proc.stdout ∧
      (main decode (start (main decode (start fs args)).proc.fs args)).exitCode
        = (main decode (start fs args)).exitCode ∧
      (main decode (start (main decode (start fs args)).proc.fs args)).proc.trace
        = (main decode (start fs args)).proc.trace := by
  rw [main_fs decode (start fs args)]
  exact ⟨rfl, rfl, rfl⟩

/-- C8: a run leaves the file system as it found it, whether the open succeeds
or fails and from every state of the process; in particular what `ast.json`
holds is the same after the run as before it. -/
theorem file_system_unchanged (decode : String → DecodeResult) (p : Proc) :
    (main decode p).proc.fs = p.fs ∧
      (main decode p).proc.fs.openRead "ast.json" = p.fs.openRead "ast.json" := by
  rw [main_fs decode p]
  exact ⟨rfl, rfl⟩

/-- C9: on every run the descriptors that were opened are the descriptors that
were closed, each of them once, and the table of open descriptors ends as it
began.  Either the open failed, no descriptor exists and `os.Exit(1)` is called;
or the open gave one descriptor, `os.Exit` is not called, and that descriptor
is closed once. -/
theorem opened_handle_closed_once (decode : String → DecodeResult) (fs : FileSys)
    (args : List String) :
    closedFds (main decode (start fs args)).proc.trace
        = openedFds (main decode (start fs args)).proc.trace ∧
      (main decode (start fs args)).proc.fds = (start fs args).fds ∧
      (((∃ e, fs.openRead "ast.json" = .error e) ∧
          openedFds (main decode (start fs args)).proc.trace = [] ∧
          exitCalls (main decode (start fs args)).proc.trace = [1]) ∨
        ((∃ c, fs.openRead "ast.json" = .ok c) ∧
          openedFds (main decode (start fs args)).proc.trace = [3] ∧
          closedFds (main decode (start fs args)).proc.trace = [3] ∧
          exitCalls (main decode (start fs args)).proc.trace = [])) := by
  cases h : fs.openRead "ast.json" with
  | error e =>
    rw [main_open_error decode fs args e h]
    exact ⟨rfl, rfl, Or.inl ⟨⟨e, rfl⟩, rfl, rfl⟩⟩
  | ok c =>
    rw [main_open_ok decode fs args c h]
    exact ⟨rfl, rfl, Or.inr ⟨⟨c, rfl⟩, rfl, rfl, rfl⟩⟩

end SemanticAnalyzer
